import Mathlib

/-!
Verification of the bounded-context long-form generation orchestrator
(`story_generator.py`, `idea_generator.py`) against its specification.

Texts are shallowly embedded as `List Char`; Python string operations
(`strip`, `rfind`, `split`, substring `in`, the specific regexes used by the
source) are translated into executable Lean functions.  Machine integers are
`Nat`/`Int`; the float comparisons of the source against the literal thresholds
`1.1`, `1.2`, `1.5` are rendered as exact rational comparisons (`10*x > 11*m`
etc.), which agree with IEEE doubles for all word counts of realistic size.
-/

set_option maxRecDepth 16384

namespace StoryGen

abbrev Text := List Char

/-! ### Generic Python string helpers -/

/-- Python whitespace for `str.strip()` / `\s`: space, tab, newline, carriage
return, vertical tab, form feed. -/
def isPyWs (c : Char) : Bool :=
  c = ' ' || c = '\t' || c = '\n' || c = '\r' || c = '\x0b' || c = '\x0c'

/-- Python `str.rstrip()`. -/
def pyRstrip (s : Text) : Text := (s.reverse.dropWhile isPyWs).reverse

/-- Python `str.strip()`. -/
def pyStrip (s : Text) : Text := ((s.dropWhile isPyWs).reverse.dropWhile isPyWs).reverse

/-- Python `str.lower()`, restricted to ASCII letters (the only characters the
lowercased error messages of the source and retry tokens depend on). -/
def pyLowerChar (c : Char) : Char :=
  if 'A' ≤ c ∧ c ≤ 'Z' then Char.ofNat (c.toNat + 32) else c

def pyLower (s : Text) : Text := s.map pyLowerChar

/-- Python substring test `needle in hay`. -/
def containsSub (needle hay : Text) : Bool := decide (needle <:+: hay)

/-! ### Segment Planner (`_optimize_chapter_structure`, story_generator.py 873-909) -/

def MAX_RETRIES : Nat := 3
def MIN_CHAPTERS_LONG_STORY : Nat := 3
def TARGET_WORDS_PER_CHAPTER_DIVISOR : Nat := 2500
def MIN_WORDS_FOR_VALID_ENDING : Nat := 4
def MIN_CHARS_FOR_RESCUE : Nat := 100

/-- Python `round` (bankers rounding, half to even) of the exact quotient
`n / d`.  `round(word_count / TARGET_WORDS_PER_CHAPTER_DIVISOR)` in the source
divides as IEEE doubles; for word counts far below 2^52 the double rounds to
the same integer as the exact rational, which is what we compute here. -/
def pyRound (n d : Nat) : Nat :=
  let q := n / d
  let r := n % d
  if 2 * r < d then q
  else if d < 2 * r then q + 1
  else if q % 2 = 0 then q else q + 1

/-- The chapter count chosen before any rebalance (story_generator.py 875-883):
`max(1, ceil(w/m))` when `w <= m * 1.5`, otherwise
`max(1, max(MIN_CHAPTERS_LONG_STORY, round(w / TARGET_WORDS_PER_CHAPTER_DIVISOR)))`.
`w ≤ 1.5 * m` is the exact form `2*w ≤ 3*m`; `ceil(w/m) = (w + m - 1) / m`
for `m ≥ 1`. -/
def initial_num_chapters (w m : Nat) : Nat :=
  let n :=
    if 2 * w ≤ 3 * m then max 1 ((w + m - 1) / m)
    else max MIN_CHAPTERS_LONG_STORY (pyRound w TARGET_WORDS_PER_CHAPTER_DIVISOR)
  max 1 n

/-- Model of `[base_words] * n` followed by `words_per_chapter[i] += 1 for i in
range(remainder)`: the first `rem` entries get one extra word. -/
def distributeWords (base : Nat) : (rem : Nat) → (n : Nat) → List Nat
  | _, 0 => []
  | rem, k + 1 => (base + if 0 < rem then 1 else 0) :: distributeWords base (rem - 1) k

/-- Model of `_optimize_chapter_structure`: pick the initial chapter count, distribute
words evenly with the remainder on the leading chapters, rebalance exactly once
(adding one chapter) if any entry exceeds `m * 1.1` (exact form `10*x > 11*m`),
and finally floor every entry at 100 words.  The `1.2 * m` re-check in the
source only logs a warning and changes nothing. -/
def optimize_chapter_structure (w m : Nat) : Nat × List Nat :=
  let n0 := initial_num_chapters w m
  let l0 := distributeWords (w / n0) (w % n0) n0
  let p :=
    if l0.any (fun x => 11 * m < 10 * x) then
      let n := n0 + 1
      (n, distributeWords (w / n) (w % n) n)
    else (n0, l0)
  (p.1, p.2.map (fun x => max 100 x))

theorem length_distributeWords (base : Nat) : ∀ rem n, (distributeWords base rem n).length = n := by
  intro rem n
  induction n generalizing rem with
  | zero => rfl
  | succ k ih => simp [distributeWords, ih]

theorem sum_distributeWords (base : Nat) :
    ∀ rem n, (distributeWords base rem n).sum = n * base + min rem n := by
  intro rem n
  induction n generalizing rem with
  | zero => simp [distributeWords]
  | succ k ih =>
    simp only [distributeWords, List.sum_cons, ih (rem - 1)]
    rcases Nat.eq_zero_or_pos rem with h | h
    · subst h; simp [Nat.succ_mul]; ring
    · have : min rem (k + 1) = min (rem - 1) k + 1 := by omega
      rw [this]
      have : (0 : Nat) < rem := h
      simp only [if_pos this]
      ring

theorem mem_distributeWords (base : Nat) :
    ∀ rem n x, x ∈ distributeWords base rem n → x = base ∨ x = base + 1 := by
  intro rem n
  induction n generalizing rem with
  | zero => intro x h; simp [distributeWords] at h
  | succ k ih =>
    intro x h
    simp only [distributeWords, List.mem_cons] at h
    rcases h with h | h
    · split at h <;> omega
    · exact ih (rem - 1) x h

theorem map_eq_self_of {α : Type} (f : α → α) :
    ∀ l : List α, (∀ x ∈ l, f x = x) → l.map f = l := by
  intro l h
  induction l with
  | nil => rfl
  | cons a t ih =>
    simp only [List.map_cons]
    rw [h a (by simp), ih (fun x hx => h x (by simp [hx]))]

theorem sum_map_ge (f : Nat → Nat) (h : ∀ x, x ≤ f x) :
    ∀ l : List Nat, l.sum ≤ (l.map f).sum := by
  intro l
  induction l with
  | nil => simp
  | cons a t ih =>
    simp only [List.map_cons, List.sum_cons]
    exact Nat.add_le_add (h a) ih

/-- In both branches the final pair is a count `n ≥ 1` together with the even
distribution for that count. -/
theorem optimize_shape (w m : Nat) :
    ∃ n, 1 ≤ n ∧
      optimize_chapter_structure w m =
        (n, (distributeWords (w / n) (w % n) n).map (fun x => max 100 x)) := by
  have h1 : 1 ≤ initial_num_chapters w m := by
    simp only [initial_num_chapters]
    omega
  by_cases hc :
      ((distributeWords (w / initial_num_chapters w m) (w % initial_num_chapters w m)
        (initial_num_chapters w m)).any (fun x => 11 * m < 10 * x)) = true
  · exact ⟨initial_num_chapters w m + 1, by omega, by simp [optimize_chapter_structure, hc]⟩
  · exact ⟨initial_num_chapters w m, h1, by simp [optimize_chapter_structure, hc]⟩

/-- C1 (amended): for `totalWords ≥ 1` and `maxWordsPerSegment ≥ 1` the planner
returns a list whose length equals the returned segment count (which is at
least 1), every entry is at least the fixed 100-word floor, the sum is at
least `totalWords`, and the sum equals `totalWords` exactly whenever the even
share `totalWords / segmentCount` is itself at least 100 (so the floor never
fires).  The plain `sum == totalWords` of the original claim fails for small
budgets, see `segment_planner_sum_cex`. -/
theorem segment_planner_invariants (w m : Nat) (hw : 1 ≤ w) (hm : 1 ≤ m) :
    (optimize_chapter_structure w m).2.length = (optimize_chapter_structure w m).1 ∧
    1 ≤ (optimize_chapter_structure w m).1 ∧
    (∀ x ∈ (optimize_chapter_structure w m).2, 100 ≤ x) ∧
    w ≤ (optimize_chapter_structure w m).2.sum ∧
    (100 ≤ w / (optimize_chapter_structure w m).1 →
      (optimize_chapter_structure w m).2.sum = w) := by
  obtain ⟨n, hn, heq⟩ := optimize_shape w m
  simp only [heq]
  have hmod : w % n < n := Nat.mod_lt _ (by omega)
  have hsum : (distributeWords (w / n) (w % n) n).sum = w := by
    rw [sum_distributeWords]
    have : min (w % n) n = w % n := by omega
    rw [this]
    exact Nat.div_add_mod w n
  refine ⟨?_, hn, ?_, ?_, ?_⟩
  · simp [length_distributeWords]
  · intro x hx
    simp only [List.mem_map] at hx
    obtain ⟨y, _, hy⟩ := hx
    omega
  · calc w = (distributeWords (w / n) (w % n) n).sum := hsum.symm
      _ ≤ _ := sum_map_ge _ (fun x => Nat.le_max_right 100 x) _
  · intro hbase
    have : (distributeWords (w / n) (w % n) n).map (fun x => max 100 x) =
        distributeWords (w / n) (w % n) n := by
      apply map_eq_self_of
      intro x hx
      rcases mem_distributeWords _ _ _ _ hx with h | h <;> omega
    rw [this, hsum]

/-- C1 counterexample: at `totalWords = 1`, `maxWordsPerSegment = 1` the
planner returns `(1, [100])` because of the 100-word floor, so
`sum(wordsPerSegment) = 100 ≠ 1 = totalWords`: the claimed `sum == totalWords`
is false. -/
theorem segment_planner_sum_cex :
    optimize_chapter_structure 1 1 = (1, [100]) ∧
      (optimize_chapter_structure 1 1).2.sum ≠ 1 := by decide

/-- C1 witness. -/
theorem segment_planner_invariants_witness :
    (optimize_chapter_structure 12000 3000).2.length =
        (optimize_chapter_structure 12000 3000).1 ∧
      1 ≤ (optimize_chapter_structure 12000 3000).1 ∧
      (∀ x ∈ (optimize_chapter_structure 12000 3000).2, 100 ≤ x) ∧
      12000 ≤ (optimize_chapter_structure 12000 3000).2.sum ∧
      (100 ≤ 12000 / (optimize_chapter_structure 12000 3000).1 →
        (optimize_chapter_structure 12000 3000).2.sum = 12000) :=
  segment_planner_invariants 12000 3000 (by decide) (by decide)

/-- C9 (amended): the planner rebalances at most once — the returned segment
count is either the initial count or the initial count plus one.  After that
single rebalance entries may still exceed `maxWordsPerSegment * 1.2`; the
planner accepts them (the source only logs a warning), see
`segment_planner_bound_cex`. -/
theorem segment_planner_single_rebalance (w m : Nat) (hw : 1 ≤ w) (hm : 1 ≤ m) :
    (optimize_chapter_structure w m).1 = initial_num_chapters w m ∨
    (optimize_chapter_structure w m).1 = initial_num_chapters w m + 1 := by
  obtain ⟨n, hn, heq⟩ := optimize_shape w m
  by_cases hc :
      ((distributeWords (w / initial_num_chapters w m) (w % initial_num_chapters w m)
        (initial_num_chapters w m)).any (fun x => 11 * m < 10 * x)) = true
  · right; simp [optimize_chapter_structure, hc]
  · left; simp [optimize_chapter_structure, hc]

/-- C9 counterexample: at `totalWords = 10000`, `maxWordsPerSegment = 100` the
single rebalance yields five chapters of 2000 words, and `2000 > 1.2 * 100`
(exact form `5 * 2000 > 6 * 100`): the claimed bound
`entry ≤ maxWordsPerSegment * 1.2` after one rebalance is false. -/
theorem segment_planner_bound_cex :
    optimize_chapter_structure 10000 100 = (5, [2000, 2000, 2000, 2000, 2000]) ∧
      ∃ x ∈ (optimize_chapter_structure 10000 100).2, 6 * 100 < 5 * x := by
  refine ⟨by decide, 2000, by decide, by decide⟩

/-- C9 witness. -/
theorem segment_planner_single_rebalance_witness :
    (optimize_chapter_structure 10000 100).1 = initial_num_chapters 10000 100 ∨
      (optimize_chapter_structure 10000 100).1 = initial_num_chapters 10000 100 + 1 :=
  segment_planner_single_rebalance 10000 100 (by decide) (by decide)

/-! ### Retry Executor (`retry_api_call`, story_generator.py 544-581) -/

/-- Exception classes: the four that line 564 of the source names in its
`isinstance` tuple, the AttributeError produced by that very line, and every
other class.  The class only serves to keep distinct exceptions
distinguishable in the model; the source never successfully inspects it (see
`is_retryable_eval`). -/
inductive ApiErrorType where
  | timeoutError | connectionError | rateLimitError | internalServerError
  | attributeError | otherError
deriving DecidableEq, Repr

/-- A raised exception: its textual signature `str(e)` and its class. -/
structure ApiError where
  msg : Text
  ty : ApiErrorType
deriving DecidableEq, Repr

/-- The textual part of the retryability classifier: the fixed tokens searched
for in `str(e).lower()` (story_generator.py 556-563). -/
def matches_retry_tokens (msg : Text) : Bool :=
  let s := pyLower msg
  containsSub ("overloaded".data) s || containsSub ("rate limit".data) s ||
  containsSub ("timeout".data) s || containsSub ("503".data) s ||
  containsSub ("504".data) s || containsSub ("connection error".data) s ||
  containsSub ("service unavailable".data) s

/-- The AttributeError raised by line 564: the source imports only the client
class (`from openai import OpenAI`, line 15), and in the openai 1.x library
this code uses, APITimeoutError / APIConnectionError / RateLimitError /
InternalServerError are module-level exceptions, not attributes of that
class.  The exact message text is immaterial to the claims. -/
def attribute_error : ApiError :=
  ⟨("type object OpenAI has no attribute APITimeoutError".data), .attributeError⟩

/-- Lines 556-564 as they actually evaluate: the `or` chain short-circuits to
True as soon as a token matches, without touching line 564; when no token
matches, evaluation reaches the `isinstance` tuple and the broken attribute
access raises AttributeError inside the `except` handler.  The expression
therefore never yields False. -/
def is_retryable_eval (e : ApiError) : Except ApiError Bool :=
  if matches_retry_tokens e.msg then Except.ok true
  else Except.error attribute_error

/-- Model of `DEFAULT_RETRY_DELAY_S * RETRY_BACKOFF_FACTOR ** (retries - 1) +
jitter` (story_generator.py 569-571); `jitter` abstracts
`random.uniform(0.1, 1.0)`. -/
def retry_delay (retries : Nat) (jitter : Nat → ℚ) : ℚ :=
  15 * (3 / 2) ^ (retries - 1) + jitter retries

/-- The `while retries <= MAX_RETRIES` loop (lines 548-581).  `budget` is
`MAX_RETRIES - retries` (the number of retries still allowed), `k` numbers
the calls so that `call k` is the outcome of the `k`-th invocation of
`call_function`.  Returns the final outcome (the propagated exception on
failure — which is the AttributeError of line 564 when the classifier
crashes, and the original error when retries are exhausted or the
never-reached False branch would fire), the number of invocations made, and
the list of back-off delays slept. -/
def retry_loop {α : Type} (call : Nat → Except ApiError α) (jitter : Nat → ℚ) :
    (budget : Nat) → (k : Nat) → Except ApiError α × Nat × List ℚ
  | budget, k =>
    match call k with
    | .ok v => (.ok v, 1, [])
    | .error e =>
      match is_retryable_eval e with
      | .error attr => (.error attr, 1, [])
      | .ok r =>
        if r then
          match budget with
          | 0 => (.error e, 1, [])
          | b + 1 =>
            let d := retry_delay (MAX_RETRIES - b) jitter
            let rest := retry_loop call jitter b (k + 1)
            (rest.1, rest.2.1 + 1, d :: rest.2.2)
        else (.error e, 1, [])

/-- Model of `retry_api_call`: run the loop with the full retry budget. -/
def retry_api_call {α : Type} (call : Nat → Except ApiError α) (jitter : Nat → ℚ) :
    Except ApiError α × Nat × List ℚ :=
  retry_loop call jitter MAX_RETRIES 0

/-- C3 (code bug): for a call that always raises an error whose textual
signature matches none of the overload/rate-limit/timeout/5xx tokens, the
executor invokes the call exactly once and performs no backoff sleep, as the
claim states — but it propagates the AttributeError raised by the broken
attribute access of line 564 instead of the original error, contrary to the
claim and to the re-raise intent the source itself documents at line 579. -/
theorem retry_executor_token_free_attribute_error {α : Type} (e : ApiError)
    (call : Nat → Except ApiError α) (jitter : Nat → ℚ)
    (hmsg : matches_retry_tokens e.msg = false)
    (hcall : call 0 = .error e) :
    retry_api_call call jitter = (.error attribute_error, 1, []) := by
  unfold retry_api_call retry_loop
  rw [hcall]
  simp [is_retryable_eval, hmsg]

/-- C3 witness: a call always raising `"invalid credentials"` fails after
exactly one invocation with zero sleeps, and the propagated exception is the
AttributeError of line 564, not the original error. -/
theorem retry_executor_token_free_attribute_error_witness :
    matches_retry_tokens ("invalid credentials".data) = false ∧
    retry_api_call
        (fun _ => (.error ⟨("invalid credentials".data), .otherError⟩ : Except ApiError Unit))
        (fun _ => 0) =
      (.error attribute_error, 1, []) ∧
    attribute_error ≠ (⟨("invalid credentials".data), .otherError⟩ : ApiError) :=
  ⟨by decide,
    retry_executor_token_free_attribute_error ⟨("invalid credentials".data), .otherError⟩ _ _
      (by decide) rfl,
    by decide⟩

/-! ### Substring search, paragraph split/join (Python `find`/`rfind`/`split`/`join`) -/

/-- The paragraph separator `"\n\n"`. -/
def nl2 : Text := "\n\n".data

/-- Python `xs.rfind(pat, 0, endPos)`: the largest index `i` with
`i + pat.length ≤ endPos` at which `pat` occurs in `xs`, or `-1`. -/
def pyRfind (pat xs : Text) (endPos : Nat) : Int :=
  match ((List.range (xs.length + 1)).filter
      (fun i => decide (i + pat.length ≤ endPos) && pat.isPrefixOf (xs.drop i))).getLast? with
  | some i => (i : Int)
  | none => -1

/-- Python split of the text on the two-newline paragraph separator: split on
non-overlapping occurrences, scanning left to right.  `acc` holds the current
piece reversed. -/
def splitParAux : Text → Text → List Text
  | [], acc => [acc.reverse]
  | [c], acc => [(c :: acc).reverse]
  | c1 :: c2 :: rest, acc =>
    if c1 = '\n' ∧ c2 = '\n' then acc.reverse :: splitParAux rest []
    else splitParAux (c2 :: rest) (c1 :: acc)

def splitPar (xs : Text) : List Text := splitParAux xs []

/-- Python join with the two-newline paragraph separator. -/
def joinPar : List Text → Text
  | [] => []
  | [a] => a
  | a :: b :: t => a ++ nl2 ++ joinPar (b :: t)

theorem splitParAux_ne_nil (xs acc : Text) : splitParAux xs acc ≠ [] := by
  generalize hn : xs.length = n
  induction n using Nat.strong_induction_on generalizing xs acc with
  | _ n ih =>
    subst hn
    match xs with
    | [] => simp [splitParAux]
    | [c] => simp [splitParAux]
    | c1 :: c2 :: rest =>
      simp only [splitParAux]
      split
      · simp
      · exact ih (c2 :: rest).length (by simp) (c2 :: rest) (c1 :: acc) rfl

theorem splitPar_ne_nil (xs : Text) : splitPar xs ≠ [] := splitParAux_ne_nil xs []

theorem joinPar_cons (a : Text) (l : List Text) (h : l ≠ []) :
    joinPar (a :: l) = a ++ nl2 ++ joinPar l := by
  cases l with
  | nil => exact absurd rfl h
  | cons b t => rfl

theorem joinPar_splitParAux (xs acc : Text) :
    joinPar (splitParAux xs acc) = acc.reverse ++ xs := by
  generalize hn : xs.length = n
  induction n using Nat.strong_induction_on generalizing xs acc with
  | _ n ih =>
    subst hn
    match xs with
    | [] => simp [splitParAux, joinPar]
    | [c] => simp [splitParAux, joinPar]
    | c1 :: c2 :: rest =>
      simp only [splitParAux]
      split
      · next hc =>
        obtain ⟨h1, h2⟩ := hc
        subst h1
        subst h2
        rw [joinPar_cons _ _ (splitParAux_ne_nil _ _),
          ih rest.length (by simp only [List.length_cons]; omega) rest [] rfl]
        simp [nl2]
      · rw [ih (c2 :: rest).length (by simp) (c2 :: rest) (c1 :: acc) rfl]
        simp

/-- Round-trip: joining the split pieces with the separator gives back the text. -/
theorem joinPar_splitPar (xs : Text) : joinPar (splitPar xs) = xs := by
  simpa using joinPar_splitParAux xs []

/-- Length bookkeeping for `joinPar` relative to the last element. -/
theorem joinPar_length_decomp :
    ∀ l : List Text, l ≠ [] →
      (joinPar l).length =
        (joinPar l.dropLast).length + (if l.dropLast = [] then 0 else 2) +
          (l.getLastD []).length := by
  intro l
  induction l with
  | nil => intro h; exact absurd rfl h
  | cons a t ih =>
    intro _
    cases t with
    | nil => simp [joinPar]
    | cons b s =>
      have ht : (b :: s : List Text) ≠ [] := by simp
      have hdl : (a :: b :: s).dropLast = a :: (b :: s).dropLast := rfl
      have hlast : ((a :: b :: s).getLastD []) = ((b :: s).getLastD []) := by
        rw [List.getLastD_eq_getLast?, List.getLastD_eq_getLast?, List.getLast?_cons_cons]
      rw [joinPar_cons a _ ht, hdl, hlast,
        if_neg (by simp : (a :: (b :: s).dropLast : List Text) ≠ [])]
      by_cases hbs : (b :: s).dropLast = []
      · have hs : s = [] := by
          cases s with
          | nil => rfl
          | cons c u => simp at hbs
        subst hs
        simp [joinPar, nl2, List.getLastD_eq_getLast?]
        omega
      · rw [joinPar_cons a _ hbs]
        have hIH := ih ht
        rw [if_neg hbs] at hIH
        simp only [List.length_append] at *
        omega

theorem joinPar_dropLast_length_le (l : List Text) :
    (joinPar l.dropLast).length ≤ (joinPar l).length := by
  rcases List.eq_nil_or_concat l with rfl | ⟨t, a, rfl⟩
  · simp
  · rw [joinPar_length_decomp (t.concat a) (by simp)]
    omega

/-! ### Boundary Repair (`_clean_text_ending`, story_generator.py 737-871) -/

/-- The straight single quote (apostrophe) character. -/
def sq : Char := Char.ofNat 39

/-- Model of `[a-zäöüß]` of the regexes in the source. -/
def isLowerDE (c : Char) : Bool :=
  ('a' ≤ c && c ≤ 'z') || c = 'ä' || c = 'ö' || c = 'ü' || c = 'ß'

/-- Model of `[A-ZÄÖÜ]` of the regexes in the source. -/
def isUpperDE (c : Char) : Bool :=
  ('A' ≤ c && c ≤ 'Z') || c = 'Ä' || c = 'Ö' || c = 'Ü'

/-- Python `str.isalnum()` on the alphabet the source works with (ASCII
letters and digits plus the German letters). -/
def isAlnumPy (c : Char) : Bool :=
  c.isAlpha || c.isDigit || isLowerDE c || isUpperDE c

/-- Model of `[a-zäöüß]+\.?$` on an rstripped text: one or more lowercase letters,
then an optional final period ending the text. -/
def lowerTail : Text → Bool
  | [] => true
  | ['.'] => true
  | c :: rest => isLowerDE c && lowerTail rest

def lowerPlusOptDot : Text → Bool
  | [] => false
  | c :: rest => isLowerDE c && lowerTail rest

/-- Model of `[A-ZÄÖÜ][a-zäöüß]+\.?$`. -/
def upperWordMatch : Text → Bool
  | [] => false
  | c :: rest => isUpperDE c && lowerPlusOptDot rest

/-- Model of `\s+[A-ZÄÖÜ][a-zäöüß]+\.?$`: at least one whitespace character (the
greedy `\s+` is forced to consume the whole maximal run because the next
atom cannot match whitespace), then the capitalized word. -/
def wsThenUpper (s : Text) : Bool :=
  match s with
  | [] => false
  | c :: _ => isPyWs c && upperWordMatch (s.dropWhile isPyWs)

/-- Model of `[,;]?\s+[A-ZÄÖÜ][a-zäöüß]+\.?$` (the part after the initial lowercase
letter). -/
def afterLowerMatch (s : Text) : Bool :=
  match s with
  | [] => false
  | c :: rest => if c = ',' || c = ';' then wsThenUpper rest else wsThenUpper s

/-- Model of the pass-1 regex search of line 748 — the pattern
`[a-zäöüß][,;]?\s+[A-ZÄÖÜ][a-zäöüß]+\.?\s*$` — on an rstripped text (so the
trailing `\s*` is empty and every match ends at the end of the text): the
start index of the leftmost match, if any. -/
def pass1MatchStart : Text → Option Nat
  | [] => none
  | c :: rest =>
    if isLowerDE c && afterLowerMatch rest then some 0
    else (pass1MatchStart rest).map (· + 1)

/-- The `potential_ends` list of line 752: period, bang and question mark each
followed by a space, the same three followed by a closing double quote and a
space, and the paragraph break. -/
def potentialEnds : List Text :=
  [". ".data, "! ".data, "? ".data, ".\" ".data, "!\" ".data, "?\" ".data, "\n\n".data]

def endsWithQuoteSpace (p : Text) : Bool := p.reverse.take 2 = [' ', '"']

/-- Lines 750-759: fold over `potential_ends`, tracking the cut index after
the best (right-most-starting) sentence terminator found before the match
start, with the extra-quote adjustment of line 758. -/
def pass1CutIndex (t : Text) (mstart : Nat) : Int :=
  potentialEnds.foldl
    (fun last p =>
      let found := pyRfind p t mstart
      if last < found then
        let e0 := found.toNat + p.length
        if endsWithQuoteSpace p && decide (e0 < t.length) && (t.getD e0 ' ' = '"') then
          ((e0 + 1 : Nat) : Int)
        else ((e0 : Nat) : Int)
      else last)
    (-1)

/-- Pass 1 (lines 746-765): incomplete trailing sentence. -/
def cleanPass1 (t : Text) : Text :=
  match pass1MatchStart t with
  | none => t
  | some m =>
    let cut := pass1CutIndex t m
    if 0 < cut then pyStrip (t.take cut.toNat) else t

/-- The terminal-punctuation set of lines 769 and 856. -/
def endPunctChars : List Char := ['.', '!', '?', '"', sq, '”', '’']

/-- The trailing quote/space set of lines 779 and 833. -/
def trailQuoteChars : List Char := [' ', '"', sq, '”', '’']

/-- Model of the while loops of lines 779-780 and 833-834: advance the cutoff
over trailing space/quote characters while it stays below the bound. -/
def advanceCutoff (t : Text) (start bound : Nat) : Nat :=
  start + (((t.drop start).take (bound - start)).takeWhile
    (fun c => trailQuoteChars.contains c)).length

/-- Pass 2 (lines 768-790): no terminal punctuation and the text ends in a
letter/digit. -/
def cleanPass2 (t : Text) : Text :=
  let endsPunct := match t.getLast? with
    | some c => endPunctChars.contains c
    | none => false
  let lastAlnum := match t.getLast? with
    | some c => isAlnumPy c
    | none => false
  if !endsPunct && lastAlnum then
    let last := max (max (pyRfind ['.'] t t.length) (pyRfind ['!'] t t.length))
                    (max (pyRfind ['?'] t t.length) (pyRfind nl2 t t.length))
    if 0 < last then
      pyStrip (t.take (advanceCutoff t (last.toNat + 1) t.length))
    else
      let lastNl := pyRfind ['\n'] t t.length
      if 0 < lastNl && decide ((t.length : Int) - lastNl < 50) then
        pyStrip (t.take lastNl.toNat)
      else t
  else t

/-- The keys of `matching_quotes` (line 798): characters always treated as
opening quotes.  Note that the straight double and single quotes are both keys and
values, and the key test comes first, so a straight quote is always pushed. -/
def quoteOpeners : List Char := ['"', sq, '“', '‘']

/-- The values of `matching_quotes`: characters treated as closing quotes when
not already caught by the key test. -/
def quoteClosers : List Char := ['"', sq, '”', '’']

def matchingClose (c : Char) : Char :=
  if c = '“' then '”' else if c = '‘' then '’' else c

/-- The quote-stack scan of lines 799-808 over the last paragraph. -/
def quoteScan : Text → List Char → List Char
  | [], stack => stack
  | c :: rest, stack =>
    if quoteOpeners.contains c then quoteScan rest (stack ++ [c])
    else if quoteClosers.contains c then
      match stack.getLast? with
      | some topc =>
        if c = matchingClose topc then quoteScan rest stack.dropLast
        else quoteScan rest stack
      | none => quoteScan rest stack
    else quoteScan rest stack

/-- Pass 3 (lines 793-840): dangling dialogue quote in the last paragraph. -/
def cleanPass3 (t : Text) : Text :=
  let paras := splitPar t
  let lastPara := pyStrip (paras.getLastD [])
  if lastPara = [] then t
  else
    match (quoteScan lastPara []).getLast? with
    | none => t
    | some lastOpen =>
      let idx := pyRfind [lastOpen] lastPara lastPara.length
      let sentEnd := max (max (pyRfind ['.'] lastPara idx.toNat)
        (pyRfind ['!'] lastPara idx.toNat)) (pyRfind ['?'] lastPara idx.toNat)
      if sentEnd < idx then
        let before0 := joinPar paras.dropLast
        let before := if before0 = [] then before0 else before0 ++ nl2
        if 0 ≤ sentEnd then
          before ++ pyStrip (lastPara.take (advanceCutoff lastPara (sentEnd.toNat + 1) idx.toNat))
        else pyStrip before
      else t

/-- Python `str.split()` with no argument: split on whitespace runs, dropping
empty pieces. -/
def pySplitWsAux : Text → Text → List Text
  | [], acc => if acc = [] then [] else [acc.reverse]
  | c :: rest, acc =>
    if isPyWs c then
      if acc = [] then pySplitWsAux rest [] else acc.reverse :: pySplitWsAux rest []
    else pySplitWsAux rest (c :: acc)

def pySplitWs (s : Text) : List Text := pySplitWsAux s []

/-- The character set stripped from the last word by line 851. -/
def wordStripSet : List Char := ['"', '.', '!', '?', ',', '’', '”', ')']

def pyStripChars (cs : List Char) (s : Text) : Text :=
  ((s.dropWhile (fun c => cs.contains c)).reverse.dropWhile (fun c => cs.contains c)).reverse

/-- The two supported languages. -/
inductive Lang where
  | de | en
deriving DecidableEq, Repr

/-- Model of `CONJUNCTIONS_AT_END` of the language configuration (lines 252 and 461). -/
def conjunctionsAtEnd : Lang → List Text
  | .de => ["und", "aber", "oder", "denn", "weil", "dass", "ob"].map String.data
  | .en => ["and", "but", "or", "so", "yet", "because", "if", "that", "when",
      "while", "although"].map String.data

/-- Pass 4 (lines 843-865): drop a short or conjunction-ending last
paragraph. -/
def cleanPass4 (lang : Lang) (t : Text) : Text :=
  let paras := splitPar t
  if 1 < paras.length then
    let lastWords := pySplitWs (pyStrip (paras.getLastD []))
    let endsConj := match lastWords.getLast? with
      | some w => (conjunctionsAtEnd lang).contains (pyStripChars wordStripSet (pyLower w))
      | none => false
    let secondLast := pyStrip (paras.getD (paras.length - 2) [])
    let okEnd := match secondLast.getLast? with
      | some c => endPunctChars.contains c
      | none => false
    if (lastWords.length < MIN_WORDS_FOR_VALID_ENDING || endsConj) && okEnd then
      pyStrip (joinPar paras.dropLast)
    else if lastWords.length < 2 && !okEnd then
      pyStrip (joinPar paras.dropLast)
    else t
  else t

/-- Model of `_clean_text_ending`: the guard of line 739 followed by the four ordered
passes.  The language only influences the conjunction list of pass 4 (all
other language lookups in the source are log messages). -/
def clean_text_ending (lang : Lang) (text : Text) : Text :=
  if text = [] || decide ((pyStrip text).length < MIN_CHARS_FOR_RESCUE / 3) then text
  else cleanPass4 lang (cleanPass3 (cleanPass2 (cleanPass1 (pyRstrip text))))

theorem length_pyStrip_le (s : Text) : (pyStrip s).length ≤ s.length := by
  unfold pyStrip
  calc ((s.dropWhile isPyWs).reverse.dropWhile isPyWs).reverse.length
      = ((s.dropWhile isPyWs).reverse.dropWhile isPyWs).length := List.length_reverse _
    _ ≤ (s.dropWhile isPyWs).reverse.length := (List.dropWhile_suffix _).length_le
    _ = (s.dropWhile isPyWs).length := List.length_reverse _
    _ ≤ s.length := (List.dropWhile_suffix _).length_le

theorem length_pyRstrip_le (s : Text) : (pyRstrip s).length ≤ s.length := by
  unfold pyRstrip
  calc (s.reverse.dropWhile isPyWs).reverse.length
      = (s.reverse.dropWhile isPyWs).length := List.length_reverse _
    _ ≤ s.reverse.length := (List.dropWhile_suffix _).length_le
    _ = s.length := List.length_reverse _

theorem length_strip_take_le (s : Text) (n : Nat) : (pyStrip (s.take n)).length ≤ s.length := by
  refine le_trans (length_pyStrip_le _) ?_
  rw [List.length_take]
  exact Nat.min_le_right _ _

theorem cleanPass1_length_le (t : Text) : (cleanPass1 t).length ≤ t.length := by
  simp only [cleanPass1]
  split
  · exact Nat.le_refl _
  · split
    · exact length_strip_take_le _ _
    · exact Nat.le_refl _

theorem cleanPass2_length_le (t : Text) : (cleanPass2 t).length ≤ t.length := by
  simp only [cleanPass2]
  split
  · split
    · exact length_strip_take_le _ _
    · split
      · exact length_strip_take_le _ _
      · exact Nat.le_refl _
  · exact Nat.le_refl _

theorem pass3_append_le (b0 g : Text) (L cut : Nat)
    (hK : b0.length + (if b0 = [] then 0 else 2) + g.length ≤ L) :
    ((if b0 = [] then b0 else b0 ++ nl2) ++ pyStrip ((pyStrip g).take cut)).length ≤ L := by
  have hg : (pyStrip ((pyStrip g).take cut)).length ≤ g.length :=
    le_trans (length_strip_take_le _ cut) (length_pyStrip_le _)
  split
  · next hb =>
    rw [hb] at hK ⊢
    simp only [List.nil_append, if_pos rfl] at hK ⊢
    omega
  · next hb =>
    rw [if_neg hb] at hK
    simp only [List.length_append]
    have hnl : nl2.length = 2 := rfl
    omega

theorem pass3_strip_le (b0 g : Text) (L : Nat)
    (hK : b0.length + (if b0 = [] then 0 else 2) + g.length ≤ L) :
    (pyStrip (if b0 = [] then b0 else b0 ++ nl2)).length ≤ L := by
  split
  · next hb =>
    have := length_pyStrip_le b0
    omega
  · next hb =>
    rw [if_neg hb] at hK
    have := length_pyStrip_le (b0 ++ nl2)
    simp only [List.length_append] at this
    have hnl : nl2.length = 2 := rfl
    omega

theorem cleanPass3_length_le (t : Text) : (cleanPass3 t).length ≤ t.length := by
  have hjoin : joinPar (splitPar t) = t := joinPar_splitPar t
  have hdecomp := joinPar_length_decomp (splitPar t) (splitPar_ne_nil t)
  rw [hjoin] at hdecomp
  have hK : (joinPar (splitPar t).dropLast).length +
      (if joinPar (splitPar t).dropLast = [] then 0 else 2) +
      ((splitPar t).getLastD []).length ≤ t.length := by
    rcases eq_or_ne (joinPar (splitPar t).dropLast) [] with hb | hb
    · rw [if_pos hb, hb]
      simp only [List.length_nil]
      omega
    · have hd : (splitPar t).dropLast ≠ [] := by
        intro hc
        exact hb (by rw [hc]; rfl)
      rw [if_neg hd] at hdecomp
      rw [if_neg hb]
      omega
  simp only [cleanPass3]
  split
  · exact Nat.le_refl _
  · split
    · exact Nat.le_refl _
    · split
      · split
        · exact pass3_append_le _ _ _ _ hK
        · exact pass3_strip_le _ _ _ hK
      · exact Nat.le_refl _

theorem cleanPass4_length_le (lang : Lang) (t : Text) :
    (cleanPass4 lang t).length ≤ t.length := by
  have hjoin : joinPar (splitPar t) = t := joinPar_splitPar t
  have h1 : (pyStrip (joinPar (splitPar t).dropLast)).length ≤ t.length := by
    calc (pyStrip (joinPar (splitPar t).dropLast)).length
        ≤ (joinPar (splitPar t).dropLast).length := length_pyStrip_le _
      _ ≤ (joinPar (splitPar t)).length := joinPar_dropLast_length_le _
      _ = t.length := by rw [hjoin]
  simp only [cleanPass4]
  split
  · split
    · exact h1
    · split
      · exact h1
      · exact Nat.le_refl _
  · exact Nat.le_refl _

/-- C10: Boundary Repair never adds content — every pass only truncates,
drops trailing paragraphs or strips whitespace, so the repaired text is never
longer than the input; and an input whose stripped length is below the
short-text threshold `MIN_CHARS_FOR_RESCUE // 3 = 33` is returned unchanged. -/
theorem boundary_repair_never_adds (lang : Lang) (text : Text) :
    (clean_text_ending lang text).length ≤ text.length ∧
    ((pyStrip text).length < MIN_CHARS_FOR_RESCUE / 3 →
      clean_text_ending lang text = text) := by
  constructor
  · unfold clean_text_ending
    split
    · exact Nat.le_refl _
    · calc (cleanPass4 lang (cleanPass3 (cleanPass2 (cleanPass1 (pyRstrip text))))).length
          ≤ (cleanPass3 (cleanPass2 (cleanPass1 (pyRstrip text)))).length :=
            cleanPass4_length_le _ _
        _ ≤ (cleanPass2 (cleanPass1 (pyRstrip text))).length := cleanPass3_length_le _
        _ ≤ (cleanPass1 (pyRstrip text)).length := cleanPass2_length_le _
        _ ≤ (pyRstrip text).length := cleanPass1_length_le _
        _ ≤ text.length := length_pyRstrip_le _
  · intro h
    unfold clean_text_ending
    have hcond : (decide (text = []) ||
        decide ((pyStrip text).length < MIN_CHARS_FOR_RESCUE / 3)) = true := by
      simp [h]
    rw [if_pos hcond]

/-- C10 witness. -/
theorem boundary_repair_never_adds_witness :
    (clean_text_ending .de "Hi.".data).length ≤ "Hi.".data.length ∧
      (pyStrip "Hi.".data).length < MIN_CHARS_FOR_RESCUE / 3 ∧
      clean_text_ending .de "Hi.".data = "Hi.".data :=
  ⟨(boundary_repair_never_adds .de "Hi.".data).1, by decide,
    (boundary_repair_never_adds .de "Hi.".data).2 (by decide)⟩

/-- C2 counterexample: on this concrete input pass 4 drops the short trailing
paragraph "Tiny bit.", but the paragraph "Short one two." newly exposed as
last is itself short, so a second application of the repair drops it too:
`repair(repair(x)) ≠ repair(x)`. -/
theorem boundary_repair_idempotence_cex :
    clean_text_ending .en
        "Good long paragraph here ends fine.\n\nShort one two.\n\nTiny bit.".data =
      "Good long paragraph here ends fine.\n\nShort one two.".data ∧
    clean_text_ending .en "Good long paragraph here ends fine.\n\nShort one two.".data =
      "Good long paragraph here ends fine.".data ∧
    clean_text_ending .en (clean_text_ending .en
        "Good long paragraph here ends fine.\n\nShort one two.\n\nTiny bit.".data) ≠
      clean_text_ending .en
        "Good long paragraph here ends fine.\n\nShort one two.\n\nTiny bit.".data := by
  have h1 : clean_text_ending .en
      "Good long paragraph here ends fine.\n\nShort one two.\n\nTiny bit.".data =
      "Good long paragraph here ends fine.\n\nShort one two.".data := by decide
  have h2 : clean_text_ending .en
      "Good long paragraph here ends fine.\n\nShort one two.".data =
      "Good long paragraph here ends fine.".data := by decide
  refine ⟨h1, h2, ?_⟩
  rw [h1, h2]
  decide

/-- C2 (amended): the repair pass is idempotent on already-well-formed input,
i.e. on every text it leaves unchanged; it is not idempotent in general
(`boundary_repair_idempotence_cex`): one application may drop only the last
short trailing paragraph, exposing another one that a second application
would drop as well. -/
theorem boundary_repair_idempotent_on_wellformed (lang : Lang) (x : Text)
    (h : clean_text_ending lang x = x) :
    clean_text_ending lang (clean_text_ending lang x) = clean_text_ending lang x := by
  rw [h]
  exact h

/-- C2 witness: a well-formed text is a fixed point, and the theorem applies. -/
theorem boundary_repair_idempotent_on_wellformed_witness :
    clean_text_ending .en "All the work was done. Everyone went home happily after.".data =
        "All the work was done. Everyone went home happily after.".data ∧
      clean_text_ending .en (clean_text_ending .en
          "All the work was done. Everyone went home happily after.".data) =
        clean_text_ending .en "All the work was done. Everyone went home happily after.".data :=
  ⟨by decide, boundary_repair_idempotent_on_wellformed .en _ (by decide)⟩

/-! ### Continuity Manager — running summary (`_update_running_summary_llm`,
story_generator.py 1067-1134, and its call site 1277-1300) -/

/-- Model of `RUNNING_SUMMARY_PLACEHOLDER` (language configuration, lines 262/471). -/
def RUNNING_SUMMARY_PLACEHOLDER : Lang → Text
  | .de => "**Laufende Zusammenfassung der gesamten bisherigen Handlung:**\n".data
  | .en => "**Running Summary of the Entire Plot So Far:**\n".data

/-- Model of `RUNNING_SUMMARY_INITIAL` (lines 263/472). -/
def RUNNING_SUMMARY_INITIAL : Lang → Text
  | .de => "Die Geschichte beginnt.".data
  | .en => "The story begins.".data

/-- Model of `ERROR_CHAPTER_CONTENT` (lines 206/415). -/
def ERROR_CHAPTER_CONTENT : Lang → Text
  | .de => "Es ist ein Fehler bei der Generierung dieses Kapitels aufgetreten.".data
  | .en => "An error occurred during the generation of this chapter.".data

/-- Model of `RESCUED_CHAPTER_NOTICE` (lines 207/416). -/
def RESCUED_CHAPTER_NOTICE : Lang → Text
  | .de => "[Das Kapitel wurde aufgrund technischer Probleme gekürzt oder konnte nicht vollständig wiederhergestellt werden. Die Geschichte wird im nächsten Kapitel fortgesetzt.]".data
  | .en => "[This chapter was shortened due to technical issues or could not be fully recovered. The story continues in the next chapter.]".data

/-- Model of `RESCUED_EPILOG_NOTICE` (lines 208/417). -/
def RESCUED_EPILOG_NOTICE : Lang → Text
  | .de => "[Die Geschichte konnte nicht vollständig abgeschlossen werden. Der Epilog fehlt oder ist unvollständig.]".data
  | .en => "[The story could not be fully completed. The epilogue is missing or incomplete.]".data

/-- Case-insensitive (ASCII) prefix test, for the `re.IGNORECASE` matches. -/
def ciIsPrefixOf : Text → Text → Bool
  | [], _ => true
  | _ :: _, [] => false
  | p :: ps, c :: cs => (pyLowerChar p = pyLowerChar c) && ciIsPrefixOf ps cs

/-- Model of `[:\s]`. -/
def isColonWs (c : Char) : Bool := c = ':' || isPyWs c

/-- The two alternatives of the boilerplate-removal regex of line 1118. -/
def boilerPhrases : List Text :=
  ["Aktualisierte Gesamtzusammenfassung".data, "Updated Overall Summary".data]

/-- The length consumed by the boilerplate regex when it matches at this
position: the phrase plus the greedy `[:\s]*` run. -/
def boilerMatchLen (s : Text) : Option Nat :=
  match boilerPhrases.find? (fun p => ciIsPrefixOf p s) with
  | some p => some (p.length + ((s.drop p.length).takeWhile isColonWs).length)
  | none => none

/-- Model of the boilerplate removal of line 1118 — an IGNORECASE MULTILINE
`re.sub` whose pattern matches either phrase at a line start followed by a
greedy colon/whitespace run, replaced by nothing: delete every such
occurrence, scanning left to right without re-examining replaced spans.
The fuel argument (always at least the text length) only certifies
termination. -/
def cleanBoilerAux : Nat → Bool → Text → Text
  | 0, _, s => s
  | _ + 1, _, [] => []
  | fuel + 1, atLineStart, c :: t =>
    if atLineStart then
      match boilerMatchLen (c :: t) with
      | some k =>
        cleanBoilerAux fuel (((c :: t).take k).getLast? = some '\n') ((c :: t).drop k)
      | none => c :: cleanBoilerAux fuel (c = '\n') t
    else c :: cleanBoilerAux fuel (c = '\n') t

def cleanBoiler (s : Text) : Text := cleanBoilerAux s.length true s

/-- Model of `_update_running_summary_llm`.  The auxiliary generation call is
abstracted as its outcome `call`: `.error e` when `retry_api_call` (or the
response access) raises — the `except` of line 1131 — and `.ok raw` when it
returns message content `raw`.  Lines 1072-1082 (stripping the placeholder off
the previous summary and blanking the initial text) only shape the prompt sent
to the backend, which this model does not track. -/
def update_running_summary_llm (lang : Lang) (previous_summary new_chapter_text : Text)
    (call : Except ApiError Text) : Text :=
  if new_chapter_text = [] || decide ((pyStrip new_chapter_text).length < 50) then
    previous_summary
  else
    match call with
    | .error _ => previous_summary
    | .ok raw =>
      let updated := pyStrip (cleanBoiler (pyStrip raw))
      if updated = [] then previous_summary
      else RUNNING_SUMMARY_PLACEHOLDER lang ++ updated

/-- The running-summary step of the chapter loop (story_generator.py 1278-1279
and 1290-1295): the update is skipped — keeping the previous summary — when
the just-completed chapter text contains the error-placeholder content or the
rescue notice. -/
def running_summary_step (lang : Lang) (chapter_text previous_summary : Text)
    (call : Except ApiError Text) : Text :=
  let is_error_content := containsSub (ERROR_CHAPTER_CONTENT lang) chapter_text
  let is_rescue_notice := containsSub (RESCUED_CHAPTER_NOTICE lang) chapter_text
  if !is_error_content && !is_rescue_notice then
    update_running_summary_llm lang previous_summary chapter_text call
  else previous_summary

/-- C4: if the auxiliary call fails (raises) or its result is empty after
stripping and boilerplate removal, the running summary is returned unchanged;
and the orchestrator skips the update entirely after a failed
(error-placeholder) chapter, so the running summary equals the one from before
that segment. -/
theorem continuity_running_summary_preserved (lang : Lang)
    (prev chapter : Text) (call : Except ApiError Text) :
    ((match call with
      | .error _ => True
      | .ok raw => pyStrip (cleanBoiler (pyStrip raw)) = []) →
      update_running_summary_llm lang prev chapter call = prev) ∧
    (containsSub (ERROR_CHAPTER_CONTENT lang) chapter = true →
      running_summary_step lang chapter prev call = prev) := by
  constructor
  · intro h
    cases call with
    | error e => simp [update_running_summary_llm]
    | ok raw =>
      simp only at h
      simp [update_running_summary_llm, h]
  · intro h
    simp [running_summary_step, h]

/-- C4 witness: a failing call keeps a concrete summary unchanged, and after a
concrete error-placeholder chapter the orchestrator step keeps it unchanged
even though the call would have succeeded. -/
theorem continuity_running_summary_preserved_witness :
    update_running_summary_llm .de "Bisher geschah viel in der Stadt.".data
        "Der Held erreichte die Stadt und fand dort endlich eine sichere Unterkunft für die Nacht.".data
        (.error ⟨"503 service unavailable".data, .internalServerError⟩) =
      "Bisher geschah viel in der Stadt.".data ∧
    running_summary_step .de
        "## Kapitel 3: [Fehler bei der Generierung]\n\nEs ist ein Fehler bei der Generierung dieses Kapitels aufgetreten.".data
        "Bisher geschah viel in der Stadt.".data
        (.ok "Eine neue Zusammenfassung.".data) =
      "Bisher geschah viel in der Stadt.".data :=
  ⟨(continuity_running_summary_preserved .de "Bisher geschah viel in der Stadt.".data
      "Der Held erreichte die Stadt und fand dort endlich eine sichere Unterkunft für die Nacht.".data
      (.error ⟨"503 service unavailable".data, .internalServerError⟩)).1 trivial,
    (continuity_running_summary_preserved .de
      "Bisher geschah viel in der Stadt.".data
      "## Kapitel 3: [Fehler bei der Generierung]\n\nEs ist ein Fehler bei der Generierung dieses Kapitels aufgetreten.".data
      (.ok "Eine neue Zusammenfassung.".data)).2 (by decide)⟩

/-! ### Orchestrator epilogue decision (`_generate_story_with_chapters`,
story_generator.py 1326-1376) -/

/-- The epilogue decision and assembly, abstracted over the outcome of
`_generate_epilogue` (`some text` on success, `none` when it fails and returns
`None`).  Returns the assembled document together with whether the epilogue
generation call was made.  `is_short` and `is_rescued` (lines 1332-1333) only
influence log messages. -/
def epilogue_step (lang : Lang) (generated_chapters : List Text) (full_story : Text)
    (epilogue_result : Option Text) : Text × Bool :=
  match generated_chapters.getLast? with
  | none => (full_story, false)
  | some last_chapter_text =>
    let is_error_content := containsSub (ERROR_CHAPTER_CONTENT lang) last_chapter_text
    if !is_error_content then
      match epilogue_result with
      | some e => (pyStrip full_story ++ nl2 ++ pyStrip e, true)
      | none => (full_story ++ nl2 ++ RESCUED_EPILOG_NOTICE lang, true)
    else (full_story ++ nl2 ++ RESCUED_EPILOG_NOTICE lang, false)

/-- C8: with at least one generated segment, the epilogue call is made iff the
final segment is not an error-placeholder segment; and whenever the call fails
or is skipped, the fixed incomplete-story notice is appended instead of
epilogue text, so the run still completes. -/
theorem orchestrator_epilogue_decision (lang : Lang) (chapters : List Text)
    (story : Text) (epi : Option Text) (last : Text)
    (hlast : chapters.getLast? = some last) :
    ((epilogue_step lang chapters story epi).2 = true ↔
      containsSub (ERROR_CHAPTER_CONTENT lang) last = false) ∧
    ((containsSub (ERROR_CHAPTER_CONTENT lang) last = true ∨ epi = none) →
      (epilogue_step lang chapters story epi).1 =
        story ++ nl2 ++ RESCUED_EPILOG_NOTICE lang) := by
  unfold epilogue_step
  rw [hlast]
  rcases he : containsSub (ERROR_CHAPTER_CONTENT lang) last with _ | _
  · cases epi with
    | none => simp [he]
    | some e =>
      constructor
      · simp [he]
      · rintro (h | h) <;> simp_all
  · cases epi with
    | none => simp [he]
    | some e => simp [he]

/-- C8 witness: a clean final chapter triggers the epilogue call, and a failed
epilogue call appends the fixed notice. -/
theorem orchestrator_epilogue_decision_witness :
    (epilogue_step .de ["Ein Kapitel ohne Fehler.".data] "Story".data none).2 = true ∧
    (epilogue_step .de ["Ein Kapitel ohne Fehler.".data] "Story".data none).1 =
      "Story".data ++ nl2 ++ RESCUED_EPILOG_NOTICE .de :=
  ⟨(orchestrator_epilogue_decision .de ["Ein Kapitel ohne Fehler.".data] "Story".data none
      "Ein Kapitel ohne Fehler.".data rfl).1.mpr (by decide),
    (orchestrator_epilogue_decision .de ["Ein Kapitel ohne Fehler.".data] "Story".data none
      "Ein Kapitel ohne Fehler.".data rfl).2 (Or.inr rfl)⟩

/-! ### Plan Segment Extractor (`_extract_outline_segment`,
story_generator.py 914-965) -/

/-- Model of `ERROR_GENERATING_OUTLINE_FALLBACK` (lines 267/476). -/
def ERROR_GENERATING_OUTLINE_FALLBACK : Lang → Text
  | .de => "Generierung der Plot-Outline fehlgeschlagen".data
  | .en => "Plot outline generation failed".data

/-- The chapter keyword of line 925. -/
def chapterKeyword : Lang → Text
  | .de => "Kapitel".data
  | .en => "Chapter".data

/-- Decimal digits of a natural number (Python string formatting of the
chapter number into the regex). -/
def natDigitsAux : Nat → Nat → Text
  | 0, _ => []
  | fuel + 1, n =>
    if n < 10 then [Char.ofNat (48 + n)]
    else natDigitsAux fuel (n / 10) ++ [Char.ofNat (48 + n % 10)]

def natDigits (n : Nat) : Text := natDigitsAux (n + 1) n

/-- Model of `[#\s]`. -/
def isHashWs (c : Char) : Bool := c = '#' || isPyWs c

/-- Model of `\w` (word character) for the `\b` boundary, over the alphabet in use. -/
def isWordChar (c : Char) : Bool := isAlnumPy c || c = '_'

/-- The start-heading pattern `[#\s]*<kw>\s+<n>\b[:\s]*\n?` (line 929-932,
`re.IGNORECASE`), attempted at one position: the suffix `s`.  Returns the
consumed length.  Each greedy run is forced to be maximal because the atom
that follows cannot match the character class of the run, and the trailing `\n?`
consumes nothing after the greedy `[:\s]*`. -/
def matchChapterHeading (kw : Text) (n : Nat) (s : Text) : Option Nat :=
  let r1 := (s.takeWhile isHashWs).length
  let s1 := s.drop r1
  if ciIsPrefixOf kw s1 then
    let s2 := s1.drop kw.length
    let r2 := (s2.takeWhile isPyWs).length
    if r2 = 0 then Option.none
    else
      let s3 := s2.drop r2
      let d := natDigits n
      if d.isPrefixOf s3 then
        let s4 := s3.drop d.length
        match s4 with
        | [] => some (r1 + kw.length + r2 + d.length)
        | c :: _ =>
          if isWordChar c then Option.none
          else some (r1 + kw.length + r2 + d.length + (s4.takeWhile isColonWs).length)
      else Option.none
  else Option.none

/-- The bare-number fallback pattern `[#\s]*<n>[.:]\s*\n?` (line 945). -/
def matchNumHeading (n : Nat) (s : Text) : Option Nat :=
  let r1 := (s.takeWhile isHashWs).length
  let s1 := s.drop r1
  let d := natDigits n
  if d.isPrefixOf s1 then
    match s1.drop d.length with
    | c :: rest =>
      if c = '.' || c = ':' then
        some (r1 + d.length + 1 + (rest.takeWhile isPyWs).length)
      else Option.none
    | [] => Option.none
  else Option.none

/-- The closing-section alternatives of the end pattern (line 938). -/
def closingKeywords : List Text :=
  ["Epilog".data, "Fazit".data, "Conclusion".data, "Summary".data,
    "Gesamtfazit".data, "Final Thoughts".data]

/-- Whether the end pattern
`[#\s]*(?:(?:<kw>\s+<n+1>\b)|(?:Epilog|Fazit|...))[:\s]*\n?` matches at this
position (only the match start is used by the source). -/
def matchesEndHeading (kw : Text) (nextNum : Nat) (s : Text) : Bool :=
  (matchChapterHeading kw nextNum s).isSome ||
  closingKeywords.any (fun k => ciIsPrefixOf k (s.drop (s.takeWhile isHashWs).length))

/-- Model of `re.search` for a `^`-anchored MULTILINE pattern: scan positions from
`pos` upward, attempting the matcher `f` at every position that is a line
start in the original text; return the first matching position together with
the consumed length. -/
def searchFromAux (f : Text → Option Nat) : Text → Nat → Bool → Option (Nat × Nat)
  | [], pos, atStart => if atStart then (f []).map (fun k => (pos, k)) else Option.none
  | c :: t, pos, atStart =>
    match (if atStart then f (c :: t) else Option.none) with
    | some k => some (pos, k)
    | Option.none => searchFromAux f t (pos + 1) (c = '\n')

def searchFrom (f : Text → Option Nat) (plan : Text) (pos : Nat) : Option (Nat × Nat) :=
  searchFromAux f (plan.drop pos) pos (pos = 0 || (plan.getD (pos - 1) ' ' = '\n'))

/-- The start match of lines 942-949: primary heading pattern, then the
bare-number fallback. -/
def outline_start_match (lang : Lang) (plan : Text) (n : Nat) : Option (Nat × Nat) :=
  match searchFrom (matchChapterHeading (chapterKeyword lang) n) plan 0 with
  | some r => some r
  | Option.none => searchFrom (matchNumHeading n) plan 0

/-- The end index of lines 953-955: the start of the next relevant section,
or the end of the text. -/
def outline_end_index (lang : Lang) (plan : Text) (n : Nat) (start_index : Nat) : Nat :=
  match searchFrom
      (fun s => if matchesEndHeading (chapterKeyword lang) (n + 1) s then some 0 else Option.none)
      plan start_index with
  | some (q, _) => q
  | Option.none => plan.length

/-- Model of `_extract_outline_segment` (the `total_chapters` parameter of the source
is unused by its logic and omitted here). -/
def extract_outline_segment (lang : Lang) (plot_outline : Text) (chapter_number : Nat) :
    Option Text :=
  if plot_outline = [] then Option.none
  else if containsSub (ERROR_GENERATING_OUTLINE_FALLBACK lang) plot_outline then Option.none
  else
    match outline_start_match lang plot_outline chapter_number with
    | Option.none => Option.none
    | some (p, k) =>
      let start_index := p + k
      let end_index := outline_end_index lang plot_outline chapter_number start_index
      let segment := pyStrip ((plot_outline.drop start_index).take (end_index - start_index))
      if segment = [] then Option.none else some segment

theorem part_of_pre {l1 l2 : Text} (h : l1 <+: l2) : l1 <:+: l2 := by
  exact List.IsPrefix.isInfix h

theorem part_of_suf {l1 l2 : Text} (h : l1 <:+ l2) : l1 <:+: l2 := by
  exact List.IsSuffix.isInfix h

theorem take_pre (l : Text) (n : Nat) : l.take n <+: l :=
  ⟨l.drop n, List.take_append_drop n l⟩

theorem reverse_dropWhile_reverse_front (p : Char → Bool) (l : Text) :
    (l.reverse.dropWhile p).reverse <+: l := by
  have h0 : l.reverse.dropWhile p <:+ l.reverse := List.dropWhile_suffix p
  have h := List.reverse_prefix.mpr h0
  rwa [List.reverse_reverse] at h

theorem pyStrip_part (s : Text) : pyStrip s <:+: s := by
  unfold pyStrip
  exact (part_of_pre (reverse_dropWhile_reverse_front isPyWs (s.dropWhile isPyWs))).trans
    (part_of_suf (List.dropWhile_suffix isPyWs))

theorem strip_take_drop_part (x : Text) (i j : Nat) :
    pyStrip ((x.drop i).take j) <:+: x :=
  (pyStrip_part _).trans ((part_of_pre (take_pre (x.drop i) j)).trans
    (part_of_suf (List.drop_suffix i x)))

/-- C7 (amended): the extractor never raises (it is a total function); when it
returns a slice, the slice is a non-empty trimmed substring of the plan taken
strictly between the end of the matched start heading and the start of the
next heading / closing keyword (or the end of the plan); and it returns
no-slice exactly in four cases — empty plan, plan containing the
outline-generation-failure marker (returned without searching, an extra case
the original claim omits), no start heading found even by the bare-number
fallback, or an empty extracted slice. -/
theorem plan_segment_extractor_characterization (lang : Lang) (plan : Text) (n : Nat) :
    (∀ s, extract_outline_segment lang plan n = some s →
      s ≠ [] ∧ s <:+: plan ∧
      ∃ p k, outline_start_match lang plan n = some (p, k) ∧
        s = pyStrip ((plan.drop (p + k)).take
          (outline_end_index lang plan n (p + k) - (p + k)))) ∧
    (extract_outline_segment lang plan n = Option.none →
      plan = [] ∨
      containsSub (ERROR_GENERATING_OUTLINE_FALLBACK lang) plan = true ∨
      outline_start_match lang plan n = Option.none ∨
      ∃ p k, outline_start_match lang plan n = some (p, k) ∧
        pyStrip ((plan.drop (p + k)).take
          (outline_end_index lang plan n (p + k) - (p + k))) = []) := by
  unfold extract_outline_segment
  split
  · next hempty =>
    exact ⟨fun s hs => Option.noConfusion hs, fun _ => Or.inl hempty⟩
  · split
    · next hmark =>
      exact ⟨fun s hs => Option.noConfusion hs, fun _ => Or.inr (Or.inl hmark)⟩
    · rcases hsm : outline_start_match lang plan n with _ | ⟨p, k⟩
      · simp only [hsm]
        exact ⟨fun s hs => Option.noConfusion hs, fun _ => Or.inr (Or.inr (Or.inl trivial))⟩
      · simp only [hsm]
        constructor
        · intro s hs
          split at hs
          · exact Option.noConfusion hs
          · next hne =>
            cases hs
            exact ⟨hne, strip_take_drop_part _ _ _, p, k, rfl, rfl⟩
        · intro hnone
          split at hnone
          · next he => exact Or.inr (Or.inr (Or.inr ⟨p, k, rfl, he⟩))
          · exact Option.noConfusion hnone

/-- C7 counterexample: a plan that contains the outline-generation-failure
marker is rejected without searching (line 922), even though a "Kapitel 1"
heading is present (the start match exists) and the slice under it is
non-empty — so "returns None only when no start heading is found or the
extracted slice is empty", as the claim states it, is false. -/
theorem plan_segment_extractor_cex :
    extract_outline_segment .de
        "Generierung der Plot-Outline fehlgeschlagen\n\nKapitel 1: Start\nInhalt hier.".data
        1 = Option.none ∧
    outline_start_match .de
        "Generierung der Plot-Outline fehlgeschlagen\n\nKapitel 1: Start\nInhalt hier.".data
        1 = some (44, 12) ∧
    pyStrip ((("Generierung der Plot-Outline fehlgeschlagen\n\nKapitel 1: Start\nInhalt hier.".data).drop 56).take
        (outline_end_index .de
          "Generierung der Plot-Outline fehlgeschlagen\n\nKapitel 1: Start\nInhalt hier.".data
          1 56 - 56)) = "Start\nInhalt hier.".data := by
  refine ⟨?_, ?_, ?_⟩ <;> rfl

/-- C7 witness: on a well-formed plan the slice for segment 1 is the non-empty
trimmed text between the "Kapitel 1" heading and the "Kapitel 2" heading. -/
theorem plan_segment_extractor_characterization_witness :
    ("Hauptcharaktere: Anna.\n\nKapitel 1: Der Anfang\nAnna kommt an.\n\nKapitel 2: Mehr\nWeiter geht es.".data ≠ ([] : Text)) ∧
    ("Der Anfang\nAnna kommt an.".data ≠ ([] : Text) ∧
      "Der Anfang\nAnna kommt an.".data <:+:
        "Hauptcharaktere: Anna.\n\nKapitel 1: Der Anfang\nAnna kommt an.\n\nKapitel 2: Mehr\nWeiter geht es.".data ∧
      ∃ p k, outline_start_match .de
          "Hauptcharaktere: Anna.\n\nKapitel 1: Der Anfang\nAnna kommt an.\n\nKapitel 2: Mehr\nWeiter geht es.".data
          1 = some (p, k) ∧
        "Der Anfang\nAnna kommt an.".data =
          pyStrip ((("Hauptcharaktere: Anna.\n\nKapitel 1: Der Anfang\nAnna kommt an.\n\nKapitel 2: Mehr\nWeiter geht es.".data).drop (p + k)).take
            (outline_end_index .de
              "Hauptcharaktere: Anna.\n\nKapitel 1: Der Anfang\nAnna kommt an.\n\nKapitel 2: Mehr\nWeiter geht es.".data
              1 (p + k) - (p + k)))) :=
  ⟨by decide,
    (plan_segment_extractor_characterization .de
      "Hauptcharaktere: Anna.\n\nKapitel 1: Der Anfang\nAnna kommt an.\n\nKapitel 2: Mehr\nWeiter geht es.".data
      1).1 "Der Anfang\nAnna kommt an.".data rfl⟩

/-! ### Structured Response Salvager (`_repair_incomplete_json` and
`_parse_json_response`, idea_generator.py 255-331 and 426-525) -/

/-- Python values as they occur in parsed JSON responses. -/
inductive PyVal where
  | none
  | bool (b : Bool)
  | int (n : Int)
  | str (s : Text)
  | list (l : List PyVal)
  | dict (d : List (Text × PyVal))
deriving Repr

/-- JSON whitespace. -/
def isJsonWs (c : Char) : Bool := c = ' ' || c = '\t' || c = '\n' || c = '\r'

def jsonSkipWs (s : Text) : Text := s.dropWhile isJsonWs

/-- JSON string body (after the opening quote): decodes the simple escape
sequences; `\uXXXX` is not needed by any input considered here and makes the
parse fail, as does an unterminated string. -/
def jsonStringAux : Text → Option (Text × Text)
  | [] => Option.none
  | c :: t =>
    if c = '"' then some ([], t)
    else if c = '\\' then
      match t with
      | [] => Option.none
      | e :: t2 =>
        let dec : Option Char :=
          if e = '"' then some '"'
          else if e = '\\' then some '\\'
          else if e = '/' then some '/'
          else if e = 'n' then some '\n'
          else if e = 't' then some '\t'
          else if e = 'r' then some '\r'
          else if e = 'b' then some (Char.ofNat 8)
          else if e = 'f' then some (Char.ofNat 12)
          else Option.none
        match dec with
        | some d => (jsonStringAux t2).map (fun r => (d :: r.1, r.2))
        | Option.none => Option.none
    else (jsonStringAux t).map (fun r => (c :: r.1, r.2))

def digitsToNatAux : Text → Nat → Nat
  | [], acc => acc
  | c :: t, acc => digitsToNatAux t (acc * 10 + (c.toNat - 48))

/-- JSON integer literal (floats are not needed by the inputs considered here
and make the parse fail). -/
def jsonNumber (s : Text) : Option (PyVal × Text) :=
  let neg := match s with | '-' :: _ => true | _ => false
  let s1 := if neg then s.drop 1 else s
  let ds := s1.takeWhile Char.isDigit
  if ds = [] then Option.none
  else
    let rest := s1.drop ds.length
    let bad := match rest with
      | c :: _ => c = '.' || c = 'e' || c = 'E'
      | [] => false
    if bad then Option.none
    else
      let v := (digitsToNatAux ds 0 : Int)
      some (PyVal.int (if neg then -v else v), rest)

mutual

/-- JSON value parser (fuel bounds the nesting depth). -/
def jsonValueAux : Nat → Text → Option (PyVal × Text)
  | 0, _ => Option.none
  | fuel + 1, s0 =>
    let s := jsonSkipWs s0
    match s with
    | [] => Option.none
    | c :: t =>
      if c = '"' then (jsonStringAux t).map (fun r => (PyVal.str r.1, r.2))
      else if c = '{' then
        match jsonSkipWs t with
        | '}' :: t2 => some (PyVal.dict [], t2)
        | s1 => (jsonMembersAux fuel s1).map (fun r => (PyVal.dict r.1, r.2))
      else if c = '[' then
        match jsonSkipWs t with
        | ']' :: t2 => some (PyVal.list [], t2)
        | s1 => (jsonElemsAux fuel s1).map (fun r => (PyVal.list r.1, r.2))
      else if ("null".data).isPrefixOf s then some (PyVal.none, s.drop 4)
      else if ("true".data).isPrefixOf s then some (PyVal.bool true, s.drop 4)
      else if ("false".data).isPrefixOf s then some (PyVal.bool false, s.drop 5)
      else jsonNumber s

/-- Model of `"key" : value` pairs separated by commas, up to the closing brace. -/
def jsonMembersAux : Nat → Text → Option (List (Text × PyVal) × Text)
  | 0, _ => Option.none
  | fuel + 1, s0 =>
    match jsonSkipWs s0 with
    | '"' :: t =>
      match jsonStringAux t with
      | Option.none => Option.none
      | some (key, rest) =>
        match jsonSkipWs rest with
        | ':' :: rest2 =>
          match jsonValueAux fuel rest2 with
          | Option.none => Option.none
          | some (v, rest3) =>
            match jsonSkipWs rest3 with
            | ',' :: rest5 => (jsonMembersAux fuel rest5).map (fun r => ((key, v) :: r.1, r.2))
            | '}' :: rest5 => some ([(key, v)], rest5)
            | _ => Option.none
        | _ => Option.none
    | _ => Option.none

/-- Array elements separated by commas, up to the closing bracket. -/
def jsonElemsAux : Nat → Text → Option (List PyVal × Text)
  | 0, _ => Option.none
  | fuel + 1, s =>
    match jsonValueAux fuel s with
    | Option.none => Option.none
    | some (v, rest) =>
      match jsonSkipWs rest with
      | ',' :: rest2 => (jsonElemsAux fuel rest2).map (fun r => (v :: r.1, r.2))
      | ']' :: rest2 => some ([v], rest2)
      | _ => Option.none

end

/-- Model of Python `json.loads` (standard library, external to the
repository): parse one JSON value and require the remainder to be whitespace;
`Option.none` stands for a raised `JSONDecodeError`. -/
def json_loads (s : Text) : Option PyVal :=
  match jsonValueAux (s.length + 1) s with
  | some (v, rest) => if jsonSkipWs rest = [] then some v else Option.none
  | Option.none => Option.none

/-- Python `str.find` for a single character, as `Option`. -/
def findChar (c : Char) : Text → Option Nat
  | [] => Option.none
  | x :: t => if x = c then some 0 else (findChar c t).map (· + 1)

/-- The brace/string scan of idea_generator.py 458-491, started at an opening
brace: returns the index (relative to the scanned suffix) of the brace that
brings the nesting counter back to zero, tracking quoted strings and
backslash escapes exactly as the source loop does. -/
def braceScanAux : Text → Nat → Bool → Bool → Int → Option Nat
  | [], _, _, _, _ => Option.none
  | c :: t, i, inString, escaped, nest =>
    if inString then
      if c = '"' && !escaped then braceScanAux t (i + 1) false false nest
      else if c = '\\' then braceScanAux t (i + 1) true (!escaped) nest
      else braceScanAux t (i + 1) true false nest
    else
      if c = '"' then braceScanAux t (i + 1) true false nest
      else if c = '{' then braceScanAux t (i + 1) false false (nest + 1)
      else if c = '}' then
        if nest - 1 = 0 then some i
        else braceScanAux t (i + 1) false false (nest - 1)
      -- outside a string the source leaves the escaped flag untouched on a
      -- backslash (the final reset of the flag applies only to other
      -- characters); the flag is re-initialized on string entry, so this has
      -- no observable effect
      else braceScanAux t (i + 1) false (if c = '\\' then escaped else false) nest

/-- The object-extraction loop of lines 452-518 over `raw_content`: find the
next opening brace, scan for its matching closing brace, parse the span in
isolation, keep dict results, advance the cursor past the closing brace; stop
when no further opening brace (or no matching closing brace) is found.  The fuel (at least the text length)
only certifies termination. -/
def extractObjectsAux : Nat → Text → List PyVal → List PyVal
  | 0, _, acc => acc.reverse
  | fuel + 1, rem, acc =>
    match findChar '{' rem with
    | Option.none => acc.reverse
    | some j =>
      let fromBrace := rem.drop j
      match braceScanAux fromBrace 0 false false 0 with
      | Option.none => acc.reverse
      | some e =>
        let acc2 := match json_loads (fromBrace.take (e + 1)) with
          | some (PyVal.dict d) => PyVal.dict d :: acc
          | _ => acc
        extractObjectsAux fuel (fromBrace.drop (e + 1)) acc2

/-- Model of `_repair_incomplete_json`: find the first opening bracket or
opening brace (lines 436-447), then run the object-extraction loop from
there. -/
def repair_incomplete_json (partial_response : Text) : List PyVal :=
  let ja := findChar '[' partial_response
  let jo := findChar '{' partial_response
  let start : Option Nat :=
    match ja, jo with
    | some a, some o => if a < o then some a else some o
    | some a, Option.none => some a
    | Option.none, some o => some o
    | Option.none, Option.none => Option.none
  match start with
  | Option.none => []
  | some i =>
    let raw := partial_response.drop i
    extractObjectsAux (raw.length + 1) raw []

/-- C5: on the array `[{"a":1},{"b":2}]` embedded in surrounding prose and
followed by the truncated fragment `{"c":`, the salvager returns exactly the
two complete objects, in order, and discards the truncated fragment without
an error. -/
theorem salvager_repair_path :
    repair_incomplete_json
        "Here are some ideas: [\x7b\"a\":1\x7d,\x7b\"b\":2\x7d] and then \x7b\"c\":".data =
      [PyVal.dict [("a".data, PyVal.int 1)], PyVal.dict [("b".data, PyVal.int 2)]] := by
  rfl

/-- Python truthiness (`not x`, `if x:`) for the values above. -/
def pyTruthy : PyVal → Bool
  | .none => false
  | .bool b => b
  | .int n => decide (n ≠ 0)
  | .str s => !s.isEmpty
  | .list l => !l.isEmpty
  | .dict d => !d.isEmpty

/-- Python `isinstance(x, int)` — also true for `bool`, a subtype of `int` in
Python. -/
def isInstInt : PyVal → Bool
  | .int _ => true
  | .bool _ => true
  | _ => false

/-- Association-list model of a Python dict (insertion order preserved). -/
def dLookup (k : Text) : List (Text × PyVal) → Option PyVal
  | [] => Option.none
  | (k2, v) :: t => if k2 = k then some v else dLookup k t

def dContains (k : Text) (d : List (Text × PyVal)) : Bool := (dLookup k d).isSome

/-- Model of `d.get(k)` (default `None`). -/
def dGet (k : Text) (d : List (Text × PyVal)) : PyVal := (dLookup k d).getD PyVal.none

/-- Model of `d[k] = v`: replace in place when the key exists, else append. -/
def dSet (k : Text) (v : PyVal) : List (Text × PyVal) → List (Text × PyVal)
  | [] => [(k, v)]
  | (k2, w) :: t => if k2 = k then (k2, v) :: t else (k2, w) :: dSet k v t

/-- Model of `d.pop(k, default)`: the removed value (or the default) together with the
dict minus the key. -/
def dPop (k : Text) (default : PyVal) : List (Text × PyVal) → PyVal × List (Text × PyVal)
  | [] => (default, [])
  | (k2, w) :: t =>
    if k2 = k then (w, t)
    else
      let r := dPop k default t
      (r.1, (k2, w) :: r.2)

/-- The required keys of idea_generator.py 298. -/
def requiredKeys : List Text :=
  ["titel".data, "prompt".data, "setting".data, "genre".data, "wortanzahl".data]

/-- Key aliasing of idea_generator.py 310-311:
`d["titel"] = d.pop("title", d.get("titel"))` and
`d["wortanzahl"] = d.pop("wordcount", d.get("wortanzahl"))`. -/
def alias_keys (d0 : List (Text × PyVal)) : List (Text × PyVal) :=
  let p1 := dPop "title".data (dGet "titel".data d0) d0
  let d1 := dSet "titel".data p1.1 p1.2
  let p2 := dPop "wordcount".data (dGet "wortanzahl".data d1) d1
  dSet "wortanzahl".data p2.1 p2.2

/-- Line 314: the random draw is consumed when `wortanzahl` is missing or not
an `int` after aliasing. -/
def nc_needsDraw (d2 : List (Text × PyVal)) : Bool :=
  !(dContains "wortanzahl".data d2) || !(isInstInt (dGet "wortanzahl".data d2))

/-- Lines 314-315: synthesize `wortanzahl` from the draw when needed. -/
def nc_d3 (d2 : List (Text × PyVal)) (draw : Int) : List (Text × PyVal) :=
  if nc_needsDraw d2 then dSet "wortanzahl".data (PyVal.int draw) d2 else d2

/-- The default genre value of line 317. -/
def genre_default (langEn : Bool) : PyVal :=
  PyVal.str (if langEn then "[Unknown]".data else "[Unbekannt]".data)

/-- Lines 316-317: default a missing/falsy `genre`. -/
def nc_d4 (langEn : Bool) (d2 : List (Text × PyVal)) (draw : Int) : List (Text × PyVal) :=
  if !(dContains "genre".data (nc_d3 d2 draw)) || !(pyTruthy (dGet "genre".data (nc_d3 d2 draw))) then
    dSet "genre".data (genre_default langEn) (nc_d3 d2 draw)
  else nc_d3 d2 draw

/-- Lines 319-326: keep the record only when no required key is missing or
falsy.  The second component reports whether the random draw was consumed. -/
def normalize_core (langEn : Bool) (d2 : List (Text × PyVal)) (draw : Int) :
    Option (List (Text × PyVal)) × Bool :=
  (if requiredKeys.filter
      (fun k => !(dContains k (nc_d4 langEn d2 draw)) || !(pyTruthy (dGet k (nc_d4 langEn d2 draw)))) = []
    then some (nc_d4 langEn d2 draw) else Option.none,
   nc_needsDraw d2)

/-- Normalization of one proposal dict (idea_generator.py 308-326).  `draw`
is the value `random.randint(DEFAULT_TARGET_WORDS_MIN,
DEFAULT_TARGET_WORDS_MAX)` would produce if called. -/
def normalize_proposal (langEn : Bool) (d0 : List (Text × PyVal)) (draw : Int) :
    Option (List (Text × PyVal)) × Bool :=
  normalize_core langEn (alias_keys d0) draw

/-- The loop of idea_generator.py 306-329 over the salvaged items, threading
the random source `rnd` by a call counter; non-dict items are skipped. -/
def process_proposals_aux (langEn : Bool) (rnd : Nat → Int) :
    List PyVal → Nat → List (List (Text × PyVal))
  | [], _ => []
  | item :: rest, k =>
    match item with
    | PyVal.dict d =>
      let r := normalize_proposal langEn d (rnd k)
      let k2 := if r.2 then k + 1 else k
      match r.1 with
      | some d4 => d4 :: process_proposals_aux langEn rnd rest k2
      | Option.none => process_proposals_aux langEn rnd rest k2
    | _ => process_proposals_aux langEn rnd rest k

/-- The validation/normalization step of `_parse_json_response` (lines
289-331), applied to whatever `proposals` value the extraction/repair steps
produced (that front end — the fenced-array regex of line 266 plus
`json.loads`/`_repair_incomplete_json` — is abstracted as the arbitrary
input value, since the claimed invariants are established by this loop
alone): a falsy result or a non-list yields `[]` rather than an error;
otherwise each dict item is normalized and kept only when every required
field is present and truthy. -/
def parse_json_response_post (proposals : PyVal) (langEn : Bool) (rnd : Nat → Int) :
    List (List (Text × PyVal)) :=
  if !(pyTruthy proposals) then []
  else
    match proposals with
    | PyVal.list items => process_proposals_aux langEn rnd items 0
    | _ => []

theorem dLookup_dSet_same (k : Text) (v : PyVal) :
    ∀ d, dLookup k (dSet k v d) = some v := by
  intro d
  induction d with
  | nil => simp [dSet, dLookup]
  | cons e t ih =>
    obtain ⟨k2, w⟩ := e
    simp only [dSet]
    by_cases h : k2 = k
    · simp [dLookup, h]
    · simp [dLookup, h, ih]

theorem dLookup_dSet_other (k k2 : Text) (v : PyVal) (hne : k ≠ k2) :
    ∀ d, dLookup k2 (dSet k v d) = dLookup k2 d := by
  intro d
  induction d with
  | nil => simp [dSet, dLookup, hne]
  | cons e t ih =>
    obtain ⟨k3, w⟩ := e
    simp only [dSet]
    by_cases h : k3 = k
    · subst h
      simp [dLookup, hne]
    · simp only [if_neg h, dLookup]
      split
      · rfl
      · exact ih

theorem dGet_dSet_same (k : Text) (v : PyVal) (d : List (Text × PyVal)) :
    dGet k (dSet k v d) = v := by
  simp [dGet, dLookup_dSet_same]

theorem dGet_dSet_other (k k2 : Text) (v : PyVal) (hne : k ≠ k2) (d : List (Text × PyVal)) :
    dGet k2 (dSet k v d) = dGet k2 d := by
  simp [dGet, dLookup_dSet_other k k2 v hne]

theorem nc_d4_wortanzahl (langEn : Bool) (d2 : List (Text × PyVal)) (draw : Int) :
    dGet "wortanzahl".data (nc_d4 langEn d2 draw) = dGet "wortanzahl".data (nc_d3 d2 draw) := by
  unfold nc_d4
  split
  · exact dGet_dSet_other "genre".data "wortanzahl".data (genre_default langEn) (by decide) _
  · rfl

theorem nc_d3_wortanzahl_int (d2 : List (Text × PyVal)) (draw : Int) :
    isInstInt (dGet "wortanzahl".data (nc_d3 d2 draw)) = true ∧
    (nc_needsDraw d2 = true → dGet "wortanzahl".data (nc_d3 d2 draw) = PyVal.int draw) := by
  unfold nc_d3
  by_cases h : nc_needsDraw d2 = true
  · rw [if_pos h, dGet_dSet_same]
    exact ⟨rfl, fun _ => rfl⟩
  · rw [if_neg h]
    have h3 : ¬(nc_needsDraw d2 = true) := h
    unfold nc_needsDraw at h3
    simp only [Bool.or_eq_true, Bool.not_eq_true', not_or, Bool.not_eq_false] at h3
    exact ⟨h3.2, fun hnd => absurd hnd h⟩

/-- Per-record facts: a record kept by the normalization has every required
field present and truthy, its `wortanzahl` is an `int` in the Python sense, and
when the random draw was consumed the kept `wortanzahl` equals the draw. -/
theorem normalize_proposal_fields (langEn : Bool) (d0 : List (Text × PyVal)) (draw : Int)
    (d4 : List (Text × PyVal)) (h : (normalize_proposal langEn d0 draw).1 = some d4) :
    (∀ key ∈ requiredKeys, dContains key d4 = true ∧ pyTruthy (dGet key d4) = true) ∧
    isInstInt (dGet "wortanzahl".data d4) = true ∧
    ((normalize_proposal langEn d0 draw).2 = true →
      dGet "wortanzahl".data d4 = PyVal.int draw) := by
  unfold normalize_proposal normalize_core at h ⊢
  simp only at h ⊢
  split at h
  · next hfilter =>
    cases h
    refine ⟨?_, ?_, ?_⟩
    · intro key hk
      have h3 := List.filter_eq_nil_iff.mp hfilter key hk
      simp only [Bool.or_eq_true, Bool.not_eq_true', not_or, Bool.not_eq_false] at h3
      exact h3
    · rw [nc_d4_wortanzahl]
      exact (nc_d3_wortanzahl_int (alias_keys d0) draw).1
    · intro hnd
      rw [nc_d4_wortanzahl]
      exact (nc_d3_wortanzahl_int (alias_keys d0) draw).2 hnd
  · exact Option.noConfusion h

/-- Every record produced by the processing loop comes from normalizing some
dict item of the input with some draw index. -/
theorem process_proposals_aux_mem (langEn : Bool) (rnd : Nat → Int) :
    ∀ items k d, d ∈ process_proposals_aux langEn rnd items k →
      ∃ d0 j, (normalize_proposal langEn d0 (rnd j)).1 = some d := by
  intro items
  induction items with
  | nil => intro k d hd; simp [process_proposals_aux] at hd
  | cons item rest ih =>
    intro k d hd
    match item with
    | PyVal.dict dd =>
      simp only [process_proposals_aux] at hd
      rcases hcase : (normalize_proposal langEn dd (rnd k)).1 with _ | d4
      · rw [hcase] at hd
        exact ih _ d hd
      · rw [hcase] at hd
        rcases List.mem_cons.mp hd with rfl | hmem
        · exact ⟨dd, k, hcase⟩
        · exact ih _ d hmem
    | PyVal.none => exact ih _ d hd
    | PyVal.bool b => exact ih _ d hd
    | PyVal.int n => exact ih _ d hd
    | PyVal.str s => exact ih _ d hd
    | PyVal.list l => exact ih _ d hd

/-- C6: every record returned by the parse step has all five required fields
present and truthy with `wortanzahl` an `int` (records still missing a field
are dropped whole); a non-list (unsalvageable) result yields the empty list
rather than an error; and a synthesized `wortanzahl` is the random draw,
which lies in the configured range `[5000, 10000]`. -/
theorem salvager_normalization (proposals : PyVal) (langEn : Bool) (rnd : Nat → Int)
    (hr : ∀ k, 5000 ≤ rnd k ∧ rnd k ≤ 10000) :
    (∀ d ∈ parse_json_response_post proposals langEn rnd,
      (∀ key ∈ requiredKeys, dContains key d = true ∧ pyTruthy (dGet key d) = true) ∧
      isInstInt (dGet "wortanzahl".data d) = true) ∧
    ((∀ l, proposals ≠ PyVal.list l) → parse_json_response_post proposals langEn rnd = []) ∧
    (∀ d0 j d, (normalize_proposal langEn d0 (rnd j)).2 = true →
      (normalize_proposal langEn d0 (rnd j)).1 = some d →
      dGet "wortanzahl".data d = PyVal.int (rnd j) ∧ 5000 ≤ rnd j ∧ rnd j ≤ 10000) := by
  refine ⟨?_, ?_, ?_⟩
  · intro d hd
    unfold parse_json_response_post at hd
    split at hd
    · simp at hd
    · match proposals with
      | PyVal.list items =>
        obtain ⟨d0, j, hnorm⟩ := process_proposals_aux_mem langEn rnd items 0 d hd
        have := normalize_proposal_fields langEn d0 (rnd j) d hnorm
        exact ⟨this.1, this.2.1⟩
      | PyVal.none => simp at hd
      | PyVal.bool b => simp at hd
      | PyVal.int n => simp at hd
      | PyVal.str s => simp at hd
      | PyVal.dict dd => simp at hd
  · intro hnl
    unfold parse_json_response_post
    split
    · rfl
    · match proposals with
      | PyVal.list items => exact absurd rfl (hnl items)
      | PyVal.none => rfl
      | PyVal.bool b => rfl
      | PyVal.int n => rfl
      | PyVal.str s => rfl
      | PyVal.dict dd => rfl
  · intro d0 j d hdraw hnorm
    exact ⟨(normalize_proposal_fields langEn d0 (rnd j) d hnorm).2.2 hdraw,
      (hr j).1, (hr j).2⟩

/-- C6 witness: a record with an aliased English `title`, no word count and a
truthy genre is normalized into a complete record whose synthesized
`wortanzahl` is the draw 7000; a bare string salvage result yields `[]`. -/
theorem salvager_normalization_witness :
    parse_json_response_post
        (PyVal.list [PyVal.dict
          [("title".data, PyVal.str "T".data), ("prompt".data, PyVal.str "P".data),
            ("setting".data, PyVal.str "S".data), ("genre".data, PyVal.str "G".data)]])
        true (fun _ => 7000) =
      [[("prompt".data, PyVal.str "P".data), ("setting".data, PyVal.str "S".data),
        ("genre".data, PyVal.str "G".data), ("titel".data, PyVal.str "T".data),
        ("wortanzahl".data, PyVal.int 7000)]] ∧
    (∀ d ∈ parse_json_response_post
        (PyVal.list [PyVal.dict
          [("title".data, PyVal.str "T".data), ("prompt".data, PyVal.str "P".data),
            ("setting".data, PyVal.str "S".data), ("genre".data, PyVal.str "G".data)]])
        true (fun _ => 7000),
      (∀ key ∈ requiredKeys, dContains key d = true ∧ pyTruthy (dGet key d) = true) ∧
      isInstInt (dGet "wortanzahl".data d) = true) ∧
    parse_json_response_post (PyVal.str "no json here".data) true (fun _ => 7000) = [] :=
  ⟨rfl,
    (salvager_normalization _ true (fun _ => 7000) (fun _ => ⟨by norm_num, by norm_num⟩)).1,
    (salvager_normalization (PyVal.str "no json here".data) true (fun _ => 7000)
      (fun _ => ⟨by norm_num, by norm_num⟩)).2.1 (fun l => by simp)⟩

end StoryGen
